import Mathlib

set_option maxRecDepth 100000

/-!
Verification of the contour-to-classification pipeline of the
ObjectDetectorML repository.

The embedding translates the core pipeline (detection/contour_detector.py,
color/hsv_color_analyzer.py, shape/geometric_shape_analyzer.py, models.py,
processing/image_processor.py) into Lean definitions.  OpenCV library
routines (cvtColor, GaussianBlur, morphologyEx, findContours, medianBlur,
approxPolyDP, arcLength) are not code of this repository; they enter the
model as explicit function parameters or as the derived quantities they
produce (vertex counts, perimeters).  Repository-side arithmetic on Python
floats is idealised as exact rational arithmetic, with the float constant
np.pi kept as the exact rational value of that IEEE-754 double.
-/

namespace ObjectDetector

/-- Exact rational value of the IEEE-754 double np.pi used by the source:
the float64 closest to pi is 884279719003555 / 2 ^ 48. -/
def npPi : ℚ := 884279719003555 / 281474976710656

/-- Circularity 4 * pi * area / perimeter ^ 2, zero when the perimeter is
not positive.  This guarded expression appears verbatim in
geometric_shape_analyzer.py (classify_contour and
_calculate_shape_confidence) and contour_detector.py
(_contour_to_detected_object). -/
def circularityOf (area perimeter : ℚ) : ℚ :=
  if 0 < perimeter then 4 * npPi * area / (perimeter * perimeter) else 0

/-- Shape record, from models.py (dataclass Shape as used by
geometric_shape_analyzer.py). -/
structure Shape where
  name : String
  confidence : ℚ
  vertices : ℕ
  area_ratio : ℚ
  aspect_ratio : ℚ
deriving DecidableEq

/-- GeometricShapeAnalyzer.classify_contour (geometric_shape_analyzer.py
lines 79-132).  The parameter vertices stands for len(approx), the vertex
count of the cv2.approxPolyDP simplification; area and perimeter stand for
cv2.contourArea and cv2.arcLength of the contour; w and h stand for the
width and height of cv2.boundingRect of the contour.  The aspect ratio is
recomputed inside the function exactly as in the source. -/
def classifyContour (vertices : ℕ) (area perimeter w h : ℚ) : String :=
  if area < 100 then "unknown"
  else
    let circularity := circularityOf area perimeter
    let aspect_ratio := if 0 < h then w / h else 0
    if 3/4 < circularity then "circle"
    else if vertices = 3 then "triangle"
    else if vertices = 4 then
      if 9/10 ≤ aspect_ratio ∧ aspect_ratio ≤ 11/10 then "square" else "rectangle"
    else if vertices = 5 then "pentagon"
    else if vertices = 6 then "hexagon"
    else if 6 < vertices then "polygon"
    else if 3/5 < circularity then "circle"
    else if 4 ≤ vertices ∧ vertices ≤ 6 then "polygon"
    else "unknown"

/-- GeometricShapeAnalyzer._calculate_shape_confidence
(geometric_shape_analyzer.py lines 148-195): base 0.5, additive
adjustments per shape, capped at 1.0; circles override the base with
circularity * 1.2. -/
def calcShapeConfidence (shape_name : String) (area perimeter area_ratio aspect_ratio : ℚ) :
    ℚ :=
  let circularity := circularityOf area perimeter
  let confidence : ℚ :=
    if shape_name = "circle" then min (circularity * (6/5)) 1
    else if shape_name = "square" then
      (1/2 + (if 9/10 ≤ aspect_ratio ∧ aspect_ratio ≤ 11/10 then 3/10 else 0))
        + (if 4/5 < area_ratio then 1/5 else 0)
    else if shape_name = "rectangle" then
      (1/2 + (if 4/5 < area_ratio then 3/10 else 0))
        + (if aspect_ratio < 9/10 ∨ 11/10 < aspect_ratio then 1/5 else 0)
    else if shape_name = "triangle" then
      1/2 + (if 2/5 ≤ area_ratio ∧ area_ratio ≤ 3/5 then 3/10 else 0)
    else if shape_name = "pentagon" ∨ shape_name = "hexagon" ∨ shape_name = "polygon" then
      1/2 + (if 7/10 < area_ratio then 1/5 else 0)
    else 1/2
  min confidence 1

/-- GeometricShapeAnalyzer.analyze_shape (geometric_shape_analyzer.py
lines 29-68): computes area ratio and aspect ratio with zero-guarded
divisions, classifies the contour, scores the confidence, and assembles
the Shape record.  bw and bh are the bounding box width and height of the
detected object, which the detector obtained from cv2.boundingRect of the
same contour. -/
def analyzeShape (vertices : ℕ) (area perimeter bw bh : ℚ) : Shape :=
  let bbox_area := bw * bh
  let area_ratio := if 0 < bbox_area then area / bbox_area else 0
  let aspect_ratio := if 0 < bh then bw / bh else 0
  let shape_name := classifyContour vertices area perimeter bw bh
  let confidence := calcShapeConfidence shape_name area perimeter area_ratio aspect_ratio
  ⟨shape_name, confidence, vertices, area_ratio, aspect_ratio⟩

/-- Claim C1, counterexample.  The derived quantities of an axis-aligned
100 by 100 square contour (vertices = 4 after simplification,
area = 10000, perimeter = 400, bounding rectangle 101 by 101) satisfy
every hypothesis of the claim, yet the classifier returns "circle", not
"square": the circularity of a perfect square is pi / 4, which exceeds
the 0.75 circle threshold that is tested first. -/
theorem square_claim_counterexample :
    ((100:ℚ) ≤ 10000 ∧
      95/100 ≤ (analyzeShape 4 10000 400 101 101).aspect_ratio ∧
      (analyzeShape 4 10000 400 101 101).aspect_ratio ≤ 105/100 ∧
      4/5 < (analyzeShape 4 10000 400 101 101).area_ratio) ∧
    (analyzeShape 4 10000 400 101 101).name = "circle" ∧
    (analyzeShape 4 10000 400 101 101).name ≠ "square" := by
  have hname : (analyzeShape 4 10000 400 101 101).name = "circle" := by
    show classifyContour 4 10000 400 101 101 = "circle"
    unfold classifyContour circularityOf
    norm_num [npPi]
  refine ⟨⟨by norm_num, ?_, ?_, ?_⟩, hname, ?_⟩
  · show (95:ℚ)/100 ≤ if 0 < (101:ℚ) then (101:ℚ) / 101 else 0
    norm_num
  · show (if 0 < (101:ℚ) then (101:ℚ) / 101 else 0) ≤ 105/100
    norm_num
  · show (4:ℚ)/5 < if 0 < (101:ℚ) * 101 then (10000:ℚ) / (101 * 101) else 0
    norm_num
  · rw [hname]
    decide

/-- Claim C1, amended: under the additional hypothesis that the contour
circularity is at most 0.75 (so the higher-priority circle branch does
not fire), a boundary simplified to exactly 4 vertices with aspect ratio
in [0.95, 1.05], area ratio above 0.8 and area at least 100 classifies as
"square" with confidence computed as 0.5 + 0.3 + 0.2 capped at 1.0,
hence at least 0.8. -/
theorem square_classification_amended (v : ℕ) (area perimeter bw bh : ℚ)
    (hv : v = 4) (harea : 100 ≤ area)
    (hcirc : circularityOf area perimeter ≤ 3/4)
    (hbh : 0 < bh)
    (hasp1 : 95/100 ≤ bw / bh) (hasp2 : bw / bh ≤ 105/100)
    (hratio : 4/5 < area / (bw * bh)) :
    (analyzeShape v area perimeter bw bh).name = "square" ∧
    (analyzeShape v area perimeter bw bh).confidence = min (1/2 + 3/10 + 1/5) 1 ∧
    4/5 ≤ (analyzeShape v area perimeter bw bh).confidence := by
  subst hv
  have hbw : (95/100 : ℚ) * bh ≤ bw := (le_div_iff₀ hbh).mp hasp1
  have hbwpos : 0 < bw := lt_of_lt_of_le (by positivity) hbw
  have hbb : 0 < bw * bh := mul_pos hbwpos hbh
  have ha : ¬ (area < 100) := not_lt.mpr harea
  have hc : ¬ (3/4 < circularityOf area perimeter) := not_lt.mpr hcirc
  have h910 : (9:ℚ)/10 ≤ bw / bh := by linarith
  have h1110 : bw / bh ≤ (11:ℚ)/10 := by linarith
  have hname : classifyContour 4 area perimeter bw bh = "square" := by
    simp [classifyContour, ha, hc, hbh, h910, h1110]
  have hconf : calcShapeConfidence "square" area perimeter (area / (bw * bh)) (bw / bh)
      = 1 := by
    simp only [calcShapeConfidence, String.reduceEq, if_false, reduceIte]
    rw [if_pos ⟨h910, h1110⟩, if_pos hratio]
    norm_num
  refine ⟨hname, ?_, ?_⟩
  · show calcShapeConfidence (classifyContour 4 area perimeter bw bh) area perimeter
      (if 0 < bw * bh then area / (bw * bh) else 0) (if 0 < bh then bw / bh else 0)
      = min (1/2 + 3/10 + 1/5) 1
    rw [hname, if_pos hbb, if_pos hbh, hconf]
    norm_num
  · show (4:ℚ)/5 ≤ calcShapeConfidence (classifyContour 4 area perimeter bw bh) area perimeter
      (if 0 < bw * bh then area / (bw * bh) else 0) (if 0 < bh then bw / bh else 0)
    rw [hname, if_pos hbb, if_pos hbh, hconf]
    norm_num

/-- Claim C1, amended, witness: a contour with vertices 4, area 10000,
perimeter 1000 and bounding rectangle 101 by 101 has circularity
npPi / 25, well below 0.75, and is classified "square" with
confidence 1. -/
theorem square_classification_amended_witness :
    (analyzeShape 4 10000 1000 101 101).name = "square" ∧
    (analyzeShape 4 10000 1000 101 101).confidence = min (1/2 + 3/10 + 1/5) 1 ∧
    4/5 ≤ (analyzeShape 4 10000 1000 101 101).confidence :=
  square_classification_amended 4 10000 1000 101 101 rfl (by norm_num)
    (by unfold circularityOf; norm_num [npPi])
    (by norm_num) (by norm_num) (by norm_num) (by norm_num)

/-- Claim C10: in classify_contour, once the circle test and the vertex
cases 3, 4, 5, 6 and greater than 6 have all failed, the remaining vertex
count is below 3, so the polygon sub-branch of the final fallback (which
asks for 4 to 6 vertices) is unreachable: the result is "circle" or
"unknown", never "polygon". -/
theorem fallback_branch_no_polygon (v : ℕ) (area perimeter w h : ℚ)
    (harea : 100 ≤ area)
    (hcirc : circularityOf area perimeter ≤ 3/4)
    (h3 : v ≠ 3) (h4 : v ≠ 4) (h5 : v ≠ 5) (h6 : v ≠ 6) (h7 : ¬ 6 < v) :
    (classifyContour v area perimeter w h = "circle" ∨
      classifyContour v area perimeter w h = "unknown") ∧
    classifyContour v area perimeter w h ≠ "polygon" := by
  have hlow : ¬ (4 ≤ v ∧ v ≤ 6) := by omega
  unfold classifyContour
  rw [if_neg (not_lt.mpr harea), if_neg (not_lt.mpr hcirc),
    if_neg h3, if_neg h4, if_neg h5, if_neg h6, if_neg h7]
  by_cases hc : 3/5 < circularityOf area perimeter
  · rw [if_pos hc]
    exact ⟨Or.inl rfl, by decide⟩
  · rw [if_neg hc, if_neg hlow]
    exact ⟨Or.inr rfl, by decide⟩

/-- Claim C10, witness: a degenerate 2-vertex approximation with area 100
and perimeter 1000 lands in the fallback and yields "unknown", not
"polygon". -/
theorem fallback_branch_no_polygon_witness :
    (classifyContour 2 100 1000 10 10 = "circle" ∨
      classifyContour 2 100 1000 10 10 = "unknown") ∧
    classifyContour 2 100 1000 10 10 ≠ "polygon" :=
  fallback_branch_no_polygon 2 100 1000 10 10 (by norm_num)
    (by unfold circularityOf; norm_num [npPi])
    (by decide) (by decide) (by decide) (by decide) (by decide)

/-- Point, from models.py: a 2D location.  The dataclass declares float
coordinates; the values the core produces are integers, modelled exactly
as rationals. -/
structure Point where
  x : ℚ
  y : ℚ
deriving DecidableEq

/-- BoundingBox, from models.py: integer position and size. -/
structure BoundingBox where
  x : ℤ
  y : ℤ
  width : ℤ
  height : ℤ
deriving DecidableEq

/-- BoundingBox.center (models.py lines 24-27): the Python floor
divisions width // 2 and height // 2 are modelled with Int.fdiv. -/
def BoundingBox.center (b : BoundingBox) : Point :=
  ⟨(b.x + Int.fdiv b.width 2 : ℤ), (b.y + Int.fdiv b.height 2 : ℤ)⟩

/-- BoundingBox.area (models.py lines 29-32): width times height. -/
def BoundingBox.area (b : BoundingBox) : ℤ := b.width * b.height

/-- Color, from models.py: RGB values, a palette name and a confidence. -/
structure Color where
  r : ℕ
  g : ℕ
  b : ℕ
  name : String
  confidence : ℚ
deriving DecidableEq

/-- DetectedObject, from models.py: bounding box, contour (the ordered
integer points of the boundary), optional color, detection confidence and
optional id. -/
structure DetectedObject where
  bounding_box : BoundingBox
  contour : List (ℤ × ℤ)
  color : Option Color
  confidence : ℚ
  object_id : Option ℤ
deriving DecidableEq

/-- DetectedObject.center (models.py lines 62-65): delegates to the
bounding box. -/
def DetectedObject.center (o : DetectedObject) : Point := o.bounding_box.center

/-- DetectedObject.area (models.py lines 67-70): delegates to the
bounding box. -/
def DetectedObject.area (o : DetectedObject) : ℤ := o.bounding_box.area

/-- Claim C7: the center property of every DetectedObject equals the
derived center of its BoundingBox, which is the integer-divided midpoint
(x + width // 2, y + height // 2), and its area property equals
width times height of the box. -/
theorem detected_object_center_area (o : DetectedObject) :
    o.center = o.bounding_box.center ∧
    o.center = ⟨(o.bounding_box.x + Int.fdiv o.bounding_box.width 2 : ℤ),
      (o.bounding_box.y + Int.fdiv o.bounding_box.height 2 : ℤ)⟩ ∧
    o.area = o.bounding_box.width * o.bounding_box.height :=
  ⟨rfl, rfl, rfl⟩

/-- Detector parameters, from ContourDetector.__init__
(contour_detector.py lines 23-41). -/
structure DetectorParams where
  min_contour_area : ℚ
  max_contour_area : ℚ
  blur_kernel_size : ℕ
  morph_kernel_size : ℕ
deriving DecidableEq

/-- ContourDetector.set_parameters (contour_detector.py lines 68-82):
each keyword present in kwargs overwrites the corresponding field. -/
def setParameters (s : DetectorParams) (minArea maxArea : Option ℚ)
    (blurKernel morphKernel : Option ℕ) : DetectorParams :=
  DetectorParams.mk (minArea.getD s.min_contour_area) (maxArea.getD s.max_contour_area)
    (blurKernel.getD s.blur_kernel_size) (morphKernel.getD s.morph_kernel_size)

/-- Single-channel image: dimensions plus a pixel function. -/
structure GrayImage where
  height : ℕ
  width : ℕ
  px : ℕ → ℕ → ℕ

/-- Three-channel BGR image. -/
structure BgrImage where
  height : ℕ
  width : ℕ
  px : ℕ → ℕ → ℕ × ℕ × ℕ

/-- OpenCV primitives used by the detector.  These are third-party
library routines, not repository code, so the model abstracts them as
function parameters bundled in one record: grayscale conversion
(cv2.cvtColor), Gaussian blur of a given kernel size (cv2.GaussianBlur),
morphological opening with an elliptical kernel of a given size
(cv2.getStructuringElement plus cv2.morphologyEx), external contour
retrieval (cv2.findContours with RETR_EXTERNAL and CHAIN_APPROX_SIMPLE),
and closed arc length (cv2.arcLength). -/
structure CVOps where
  convertToGray : BgrImage → GrayImage
  gaussianBlur : GrayImage → ℕ → GrayImage
  morphOpenEllipse : GrayImage → ℕ × ℕ → GrayImage
  findContours : GrayImage → List (List (ℤ × ℤ))
  arcLength : List (ℤ × ℤ) → ℚ

/-- ImageProcessor.apply_gaussian_blur (image_processor.py lines 63-77):
even kernel sizes are rounded up to the next odd value before the library
blur is invoked. -/
def applyGaussianBlur (ops : CVOps) (image : GrayImage) (kernel_size : ℕ) : GrayImage :=
  ops.gaussianBlur image (if kernel_size % 2 = 0 then kernel_size + 1 else kernel_size)

/-- cv2.threshold with THRESH_BINARY, threshold 127 and maxval 255:
pixels above the threshold become 255, the rest 0. -/
def thresholdBinary127 (image : GrayImage) : GrayImage :=
  ⟨image.height, image.width, fun r c => if 127 < image.px r c then 255 else 0⟩

/-- cv2.bitwise_not on an 8-bit image: each pixel v becomes 255 - v. -/
def bitwiseNot (image : GrayImage) : GrayImage :=
  ⟨image.height, image.width, fun r c => 255 - image.px r c⟩

/-- np.mean over all pixels of a single-channel image, as an exact
rational (division by a zero pixel count yields 0 in this model). -/
def imageMean (image : GrayImage) : ℚ :=
  ((((List.range image.height).map (fun r =>
      ((List.range image.width).map (fun c => image.px r c)).sum)).sum : ℕ) : ℚ) /
    ((image.height * image.width : ℕ) : ℚ)

/-- ContourDetector._preprocess_image (contour_detector.py lines 98-127):
grayscale, Gaussian blur with the configured kernel size, fixed binary
threshold at 127, polarity auto-inversion when the mean exceeds 127, and
a morphological opening whose elliptical kernel is hard-coded to size
(3, 3) regardless of the stored morph_kernel_size parameter. -/
def preprocessImage (ops : CVOps) (s : DetectorParams) (image : BgrImage) : GrayImage :=
  let gray := ops.convertToGray image
  let blurred := applyGaussianBlur ops gray s.blur_kernel_size
  let binary := thresholdBinary127 blurred
  let corrected := if 127 < imageMean binary then bitwiseNot binary else binary
  ops.morphOpenEllipse corrected (3, 3)

/-- Cross products x_i * y_j - x_j * y_i summed along the polygon edges,
closing back to the first vertex. -/
def shoelaceFrom (first : ℤ × ℤ) : List (ℤ × ℤ) → ℤ
  | [] => 0
  | [p] => p.1 * first.2 - first.1 * p.2
  | p :: q :: rest => (p.1 * q.2 - q.1 * p.2) + shoelaceFrom first (q :: rest)

/-- Oriented double area of a closed polygon (shoelace sum). -/
def shoelaceSum : List (ℤ × ℤ) → ℤ
  | [] => 0
  | p :: ps => shoelaceFrom p (p :: ps)

/-- cv2.contourArea on an integer contour: half the absolute value of the
shoelace sum. -/
def contourArea (c : List (ℤ × ℤ)) : ℚ := ((shoelaceSum c).natAbs : ℚ) / 2

/-- cv2.boundingRect on an integer contour: minimal axis-aligned box,
with the plus-one width and height convention of OpenCV. -/
def boundingRect (c : List (ℤ × ℤ)) : BoundingBox :=
  match c with
  | [] => ⟨0, 0, 0, 0⟩
  | p :: ps =>
    let minX := ps.foldl (fun a q => min a q.1) p.1
    let maxX := ps.foldl (fun a q => max a q.1) p.1
    let minY := ps.foldl (fun a q => min a q.2) p.2
    let maxY := ps.foldl (fun a q => max a q.2) p.2
    ⟨minX, minY, maxX - minX + 1, maxY - minY + 1⟩

/-- ContourDetector._is_valid_contour (contour_detector.py lines
144-155): the area lies within [min_contour_area, max_contour_area],
both ends inclusive; no other criterion is applied. -/
def isValidContour (s : DetectorParams) (c : List (ℤ × ℤ)) : Bool :=
  decide (s.min_contour_area ≤ contourArea c ∧ contourArea c ≤ s.max_contour_area)

/-- ContourDetector._contour_to_detected_object (contour_detector.py
lines 157-181): bounding rectangle, confidence min(circularity * 2, 1),
color and id left unset. -/
def contourToDetectedObject (ops : CVOps) (c : List (ℤ × ℤ)) : DetectedObject :=
  let area := contourArea c
  let perimeter := ops.arcLength c
  let confidence := min (circularityOf area perimeter * 2) 1
  ⟨boundingRect c, c, none, confidence, none⟩

/-- ContourDetector.detect_objects (contour_detector.py lines 43-66):
preprocess, find the contours, keep the valid ones, and convert each to a
DetectedObject. -/
def detectObjects (ops : CVOps) (s : DetectorParams) (image : BgrImage) :
    List DetectedObject :=
  let processed := preprocessImage ops s image
  let contours := ops.findContours processed
  (contours.filter (isValidContour s)).map (contourToDetectedObject ops)

/-- Claim C3: a contour found in the mask is included in the detector
output if and only if its polygon area lies in
[min_contour_area, max_contour_area] with both ends inclusive, and when
min_contour_area is positive a zero-area boundary is never included. -/
theorem contour_admission_iff (ops : CVOps) (s : DetectorParams) (image : BgrImage) :
    ∀ c ∈ ops.findContours (preprocessImage ops s image),
      ((∃ o ∈ detectObjects ops s image, o.contour = c) ↔
        (s.min_contour_area ≤ contourArea c ∧ contourArea c ≤ s.max_contour_area)) ∧
      (0 < s.min_contour_area → contourArea c = 0 →
        ¬ ∃ o ∈ detectObjects ops s image, o.contour = c) := by
  intro c hc
  have hiff : (∃ o ∈ detectObjects ops s image, o.contour = c) ↔
      (s.min_contour_area ≤ contourArea c ∧ contourArea c ≤ s.max_contour_area) := by
    constructor
    · rintro ⟨o, ho, hoc⟩
      simp only [detectObjects, List.mem_map, List.mem_filter] at ho
      obtain ⟨c₂, ⟨hmem, hvalid⟩, rfl⟩ := ho
      obtain rfl : c₂ = c := hoc
      exact of_decide_eq_true hvalid
    · intro hbounds
      refine ⟨contourToDetectedObject ops c, ?_, rfl⟩
      simp only [detectObjects, List.mem_map, List.mem_filter]
      exact ⟨c, ⟨hc, decide_eq_true hbounds⟩, rfl⟩
  refine ⟨hiff, ?_⟩
  intro hmin hzero hex
  have hb := hiff.mp hex
  rw [hzero] at hb
  exact absurd hb.1 (not_le.mpr hmin)

/-- Concrete OpenCV stand-in for witnesses: identity-like pipeline stages,
one fixed square contour, arc length 40. -/
def testOps : CVOps :=
  ⟨fun i => ⟨i.height, i.width, fun _ _ => 0⟩, fun i _ => i, fun i _ => i,
    fun _ => [[(0, 0), (10, 0), (10, 10), (0, 10)]], fun _ => 40⟩

/-- Concrete detector parameters for witnesses. -/
def testParams : DetectorParams := ⟨50, 500, 5, 5⟩

/-- Concrete one-pixel frame for witnesses. -/
def testImage : BgrImage := ⟨1, 1, fun _ _ => (0, 0, 0)⟩

/-- Concrete square contour for witnesses, of area 100 and perimeter 40. -/
def testSquare : List (ℤ × ℤ) := [(0, 0), (10, 0), (10, 10), (0, 10)]

/-- Claim C3, witness: with area bounds [50, 500], the square contour of
area 100 found by the (stubbed) contour stage is admitted. -/
theorem contour_admission_iff_witness :
    ∃ o ∈ detectObjects testOps testParams testImage, o.contour = testSquare := by
  have harea : contourArea testSquare = 100 := by
    norm_num [contourArea, testSquare, shoelaceSum, shoelaceFrom]
  have hmem : testSquare ∈ testOps.findContours (preprocessImage testOps testParams testImage) := by
    simp [testOps, testSquare]
  exact ((contour_admission_iff testOps testParams testImage testSquare hmem).1).mpr
    (by rw [harea]; norm_num [testParams])

/-- Detection confidence as the specification words it, kept separate for
the refinement comparison of claim C4: min(2 x circularity, 1.0), where
circularity is 4 pi area / perimeter squared and is 0 when the perimeter
is 0. -/
def specDetectionConfidence (area perimeter : ℚ) : ℚ :=
  min (2 * (if perimeter = 0 then 0 else 4 * npPi * area / (perimeter * perimeter))) 1

/-- Claim C4: the detection confidence of every assembled DetectedObject
equals min(2 x circularity, 1.0) with the zero-perimeter case guarded to
circularity 0, exactly as the specification states; the construction
takes no shape-classification input. -/
theorem detection_confidence_formula (ops : CVOps) (c : List (ℤ × ℤ))
    (hper : 0 ≤ ops.arcLength c) :
    (contourToDetectedObject ops c).confidence =
      specDetectionConfidence (contourArea c) (ops.arcLength c) ∧
    (ops.arcLength c = 0 → (contourToDetectedObject ops c).confidence = 0) := by
  constructor
  · show min (circularityOf (contourArea c) (ops.arcLength c) * 2) 1 = _
    unfold circularityOf specDetectionConfidence
    rcases eq_or_lt_of_le hper with h0 | hpos
    · have hnot : ¬ (0 < ops.arcLength c) := by
        rw [← h0]
        exact lt_irrefl 0
      rw [if_neg hnot, if_pos h0.symm]
      norm_num
    · rw [if_pos hpos, if_neg (ne_of_gt hpos)]
      ring_nf
  · intro h0
    show min (circularityOf (contourArea c) (ops.arcLength c) * 2) 1 = 0
    rw [h0]
    unfold circularityOf
    norm_num

/-- Claim C4, witness: for the square contour with stubbed arc length 40,
the assembled confidence matches the specification formula. -/
theorem detection_confidence_formula_witness :
    (contourToDetectedObject testOps testSquare).confidence =
      specDetectionConfidence (contourArea testSquare) (testOps.arcLength testSquare) ∧
    (testOps.arcLength testSquare = 0 →
      (contourToDetectedObject testOps testSquare).confidence = 0) :=
  detection_confidence_formula testOps testSquare (by norm_num [testOps])

/-- Claim C9: detect_objects is independent of the stored
morph_kernel_size, whether that field is set through the constructor or
through set_parameters, because the preprocessing stage hard-codes a
(3, 3) elliptical kernel for its morphological opening. -/
theorem morph_kernel_size_ignored (ops : CVOps) (s : DetectorParams) (k : ℕ)
    (image : BgrImage) :
    detectObjects ops
      (DetectorParams.mk s.min_contour_area s.max_contour_area s.blur_kernel_size k)
      image = detectObjects ops s image ∧
    detectObjects ops (setParameters s none none none (some k)) image =
      detectObjects ops s image :=
  ⟨rfl, rfl⟩

/-- One HSV pixel on the OpenCV 8-bit scales (hue 0-179, saturation and
value 0-255). -/
structure Pixel where
  h : ℕ
  s : ℕ
  v : ℕ
deriving DecidableEq

/-- Inclusive HSV range: lower and upper (H, S, V) bounds. -/
abbrev ColorRange := (ℕ × ℕ × ℕ) × (ℕ × ℕ × ℕ)

/-- cv2.inRange membership test for one pixel: every channel between the
corresponding lower and upper bound, inclusive. -/
def pixelInRange (p : Pixel) (r : ColorRange) : Bool :=
  decide (r.1.1 ≤ p.h ∧ p.h ≤ r.2.1 ∧ r.1.2.1 ≤ p.s ∧ p.s ≤ r.2.2.1 ∧
    r.1.2.2 ≤ p.v ∧ p.v ≤ r.2.2.2)

/-- cv2.countNonZero of the cv2.inRange mask: the number of crop pixels
inside the range. -/
def countInRange (pixels : List Pixel) (r : ColorRange) : ℕ :=
  (pixels.filter (fun p => pixelInRange p r)).length

/-- The HSV palette of HSVColorAnalyzer.__init__ (hsv_color_analyzer.py
lines 29-42), in dict insertion order. -/
def defaultColorRanges : List (String × ColorRange) :=
  [("red", ((0, 50, 50), (10, 255, 255))),
   ("red2", ((170, 50, 50), (180, 255, 255))),
   ("orange", ((11, 50, 50), (25, 255, 255))),
   ("yellow", ((26, 50, 50), (35, 255, 255))),
   ("green", ((36, 50, 50), (85, 255, 255))),
   ("cyan", ((86, 50, 50), (95, 255, 255))),
   ("blue", ((96, 50, 50), (125, 255, 255))),
   ("purple", ((126, 50, 50), (145, 255, 255))),
   ("pink", ((146, 50, 50), (169, 255, 255))),
   ("white", ((0, 0, 200), (180, 30, 255))),
   ("black", ((0, 0, 0), (180, 255, 50))),
   ("gray", ((0, 0, 51), (180, 30, 199)))]

/-- The RGB display palette of HSVColorAnalyzer.__init__
(hsv_color_analyzer.py lines 45-58). -/
def defaultColorRGB : List (String × (ℕ × ℕ × ℕ)) :=
  [("red", (255, 0, 0)),
   ("red2", (255, 0, 0)),
   ("orange", (255, 165, 0)),
   ("yellow", (255, 255, 0)),
   ("green", (0, 255, 0)),
   ("cyan", (0, 255, 255)),
   ("blue", (0, 0, 255)),
   ("purple", (128, 0, 128)),
   ("pink", (255, 192, 203)),
   ("white", (255, 255, 255)),
   ("black", (0, 0, 0)),
   ("gray", (128, 128, 128))]

/-- Python dict lookup on an association list. -/
def lookupEntry {α : Type} (l : List (String × α)) (nm : String) : Option α :=
  (l.find? (fun e => e.1 == nm)).map (fun e => e.2)

/-- np.argmax over the 180-bin hue histogram of cv2.calcHist: the first
hue bin (0 to 179) with the maximal pixel count. -/
def dominantHue (pixels : List Pixel) : ℕ :=
  ((List.range 180).foldl
    (fun best i =>
      let c := (pixels.filter (fun p => p.h == i)).length
      if best.2 < c then (i, c) else best)
    ((0 : ℕ), (0 : ℕ))).1

/-- np.mean of the saturation channel, as an exact rational. -/
def meanSat (pixels : List Pixel) : ℚ :=
  (((pixels.map (fun p => p.s)).sum : ℕ) : ℚ) / (pixels.length : ℚ)

/-- np.mean of the value channel, as an exact rational. -/
def meanVal (pixels : List Pixel) : ℚ :=
  (((pixels.map (fun p => p.v)).sum : ℕ) : ℚ) / (pixels.length : ℚ)

/-- The saturation and brightness adjustments of _find_dominant_color
(hsv_color_analyzer.py lines 185-205), applied to one candidate score. -/
def adjustSatVal (color_name : String) (mean_s mean_v conf : ℚ) : ℚ :=
  if 50 < mean_s ∧ 50 < mean_v then conf * (11/10)
  else if mean_s < 30 then
    if color_name = "white" ∨ color_name = "black" ∨ color_name = "gray" then
      conf * (6/5)
    else conf * (4/5)
  else if mean_v < 50 then
    if color_name = "black" then conf * (13/10) else conf * (9/10)
  else if 200 < mean_v then
    if color_name = "white" then conf * (13/10) else conf * (9/10)
  else conf

/-- The matching-pixel count of one candidate, with the red wrap-around
handling of _find_dominant_color (hsv_color_analyzer.py lines 169-177):
the red candidate adds the pixel count of the red2 range when that range
is present. -/
def redAdjustedCount (ranges : List (String × ColorRange)) (pixels : List Pixel)
    (color_name : String) (rng : ColorRange) : ℕ :=
  if color_name = "red" then
    match lookupEntry ranges "red2" with
    | some r2 => countInRange pixels rng + countInRange pixels r2
    | none => countInRange pixels rng
  else countInRange pixels rng

/-- The histogram-based boost (hsv_color_analyzer.py lines 179-182): a
1.2 multiplier when the dominant hue lies within the candidate hue range,
inclusive on both ends. -/
def hueBoost (pixels : List Pixel) (rng : ColorRange) (base : ℚ) : ℚ :=
  if rng.1.1 ≤ dominantHue pixels ∧ dominantHue pixels ≤ rng.2.1 then base * (6/5)
  else base

/-- The adjusted confidence one loop iteration of _find_dominant_color
computes for a palette entry (hsv_color_analyzer.py lines 161-205):
matching-pixel fraction (zero-guarded on the pixel count), the
dominant-hue boost, then the saturation and brightness adjustments. -/
def scoreColor (ranges : List (String × ColorRange)) (pixels : List Pixel)
    (color_name : String) (rng : ColorRange) : ℚ :=
  adjustSatVal color_name (meanSat pixels) (meanVal pixels)
    (hueBoost pixels rng
      (if 0 < pixels.length then
        ((redAdjustedCount ranges pixels color_name rng : ℕ) : ℚ) / (pixels.length : ℚ)
      else 0))

/-- One iteration of the candidate loop: skip the red2 entry when red is
present, otherwise keep the candidate with the strictly highest adjusted
confidence. -/
def rangeStep (ranges : List (String × ColorRange)) (pixels : List Pixel)
    (best : String × ℚ) (e : String × ColorRange) : String × ℚ :=
  if e.1 = "red2" ∧ (lookupEntry ranges "red").isSome then best
  else if best.2 < scoreColor ranges pixels e.1 e.2 then
    (e.1, scoreColor ranges pixels e.1 e.2)
  else best

/-- The range-matching pass of _find_dominant_color (hsv_color_analyzer.py
lines 148-207): fold the candidate loop over the palette, starting from
("unknown", 0). -/
def rangePass (ranges : List (String × ColorRange)) (pixels : List Pixel) : String × ℚ :=
  ranges.foldl (rangeStep ranges pixels) ("unknown", 0)

/-- HSVColorAnalyzer.get_average_color_in_roi (hsv_color_analyzer.py lines
231-246): per-channel mean truncated to int (floor for these nonnegative
values), with a (0, 0, 0) guard for an empty crop. -/
def averageHSV (pixels : List Pixel) : ℕ × ℕ × ℕ :=
  if pixels.length = 0 then (0, 0, 0)
  else ((pixels.map (fun p => p.h)).sum / pixels.length,
    (pixels.map (fun p => p.s)).sum / pixels.length,
    (pixels.map (fun p => p.v)).sum / pixels.length)

/-- HSVColorAnalyzer._classify_by_average_hsv (hsv_color_analyzer.py lines
248-287): grayscale bands first (low saturation split by brightness),
then chromatic bands by hue. -/
def classifyByAverageHSV (hsv : ℕ × ℕ × ℕ) : String :=
  let h := hsv.1
  let s := hsv.2.1
  let v := hsv.2.2
  if s < 30 then
    if v < 50 then "black"
    else if 200 < v then "white"
    else "gray"
  else if h ≤ 10 ∨ 170 ≤ h then "red"
  else if 11 ≤ h ∧ h ≤ 25 then "orange"
  else if 26 ≤ h ∧ h ≤ 35 then "yellow"
  else if 36 ≤ h ∧ h ≤ 85 then "green"
  else if 86 ≤ h ∧ h ≤ 95 then "cyan"
  else if 96 ≤ h ∧ h ≤ 125 then "blue"
  else if 126 ≤ h ∧ h ≤ 145 then "purple"
  else if 146 ≤ h ∧ h ≤ 169 then "pink"
  else "unknown"

/-- The attribute state of an HSVColorAnalyzer instance: the two palette
dictionaries set up by __init__ and mutable in Python. -/
structure AnalyzerState where
  colorRanges : List (String × ColorRange)
  colorRGB : List (String × (ℕ × ℕ × ℕ))

/-- The state __init__ leaves behind. -/
def defaultAnalyzerState : AnalyzerState := ⟨defaultColorRanges, defaultColorRGB⟩

/-- The low-confidence fallback of _find_dominant_color
(hsv_color_analyzer.py lines 207-212): when the best adjusted confidence
is below 0.1, the name is reassigned from the mean HSV bands and the
confidence to the fixed 0.5. -/
def bestAfterFallback (st : AnalyzerState) (pixels : List Pixel) : String × ℚ :=
  if (rangePass st.colorRanges pixels).2 < 1/10 then
    (classifyByAverageHSV (averageHSV pixels), (1/2 : ℚ))
  else rangePass st.colorRanges pixels

/-- Tail of _find_dominant_color after the median blur
(hsv_color_analyzer.py lines 145-229): range-matching pass, the
mean-HSV fallback, RGB lookup defaulting to mid-gray, and the final cap
at 1.0. -/
def findDominantColorCore (st : AnalyzerState) (pixels : List Pixel) : Color :=
  let best := bestAfterFallback st pixels
  let rgb :=
    match lookupEntry st.colorRGB best.1 with
    | some t => t
    | none => (128, 128, 128)
  ⟨rgb.1, rgb.2.1, rgb.2.2, best.1, min best.2 1⟩

/-- HSVColorAnalyzer._find_dominant_color (hsv_color_analyzer.py lines
125-229): an empty crop returns Color(128, 128, 128, "unknown", 0.0)
before any processing; otherwise the cv2.medianBlur library call (the
blur parameter) runs first and the scoring proceeds on the filtered
pixels. -/
def findDominantColor (st : AnalyzerState) (blur : List Pixel → List Pixel)
    (roi : List Pixel) : Color :=
  if roi.length = 0 then ⟨128, 128, 128, "unknown", 0⟩
  else findDominantColorCore st (blur roi)

/-- The effective bound of a numpy basic-slice index on an axis of
length n: a negative index has n added, then the result is clamped into
[0, n]. -/
def npBound (n : ℕ) (i : ℤ) : ℤ :=
  min ((n : ℤ)) (max 0 (if i < 0 then i + n else i))

/-- The index list of the numpy basic slice a[start:stop] (step 1) on an
axis of length n: both bounds pass through npBound and the indices run
from the start bound up to the stop bound exclusive (empty when
inverted).  In particular a negative stop in (-n, 0) wraps around to a
nonempty prefix of the axis. -/
def npSliceIndices (n : ℕ) (start stop : ℤ) : List ℤ :=
  (List.range (npBound n stop - npBound n start).toNat).map
    (fun (k : ℕ) => npBound n start + (k : ℤ))

/-- The pixel coordinates HSVColorAnalyzer._extract_roi reads
(hsv_color_analyzer.py lines 104-123): the Python code computes
y_start = max(0, y), y_end = min(height, y + height_box) and likewise for
x, then slices image[y_start:y_end, x_start:x_end], so the numpy slice
semantics of npSliceIndices (including negative-stop wraparound) apply to
those values. -/
def extractRoiCoords (image : BgrImage) (b : BoundingBox) : List (ℤ × ℤ) :=
  ((npSliceIndices image.height (max 0 b.y)
      (min ((image.height : ℤ)) (b.y + b.height))).map
    (fun r =>
      (npSliceIndices image.width (max 0 b.x)
          (min ((image.width : ℤ)) (b.x + b.width))).map
        (fun c => (r, c)))).flatten

/-- The raw BGR pixels of the crop, in row-major order. -/
def extractRoiPixels (image : BgrImage) (b : BoundingBox) : List (ℕ × ℕ × ℕ) :=
  (extractRoiCoords image b).map (fun rc => image.px rc.1.toNat rc.2.toNat)

/-- ImageProcessor.convert_to_hsv, a wrapper around cv2.cvtColor with
COLOR_BGR2HSV: OpenCV asserts that the source is nonempty and raises
cv2.error on an empty input; on a nonempty image it converts pixelwise
(the per-pixel map is the abstract cvt parameter). -/
def convertToHsv (cvt : ℕ × ℕ × ℕ → Pixel) (roi : List (ℕ × ℕ × ℕ)) :
    Except String (List Pixel) :=
  if roi.isEmpty then Except.error "cvtColor: !_src.empty()"
  else Except.ok (roi.map cvt)

/-- HSVColorAnalyzer.analyze_color (hsv_color_analyzer.py lines 60-80),
with the mutable analyzer object modelled by explicit state passing and
the cv2.cvtColor failure on an empty crop modelled with Except: the
method extracts the clipped crop, converts it to HSV (which raises on an
empty crop, before the size guard inside _find_dominant_color can run),
then scores it.  It reads the palettes from the state and never assigns
an attribute, so a successful call returns the state unchanged next to
the Color. -/
def analyzeColor (cvt : ℕ × ℕ × ℕ → Pixel) (blur : List Pixel → List Pixel)
    (st : AnalyzerState) (image : BgrImage) (obj : DetectedObject) :
    Except String (Color × AnalyzerState) :=
  match convertToHsv cvt (extractRoiPixels image obj.bounding_box) with
  | Except.error e => Except.error e
  | Except.ok hsv_roi => Except.ok (findDominantColor st blur hsv_roi, st)

/-- Helper: the saturation and brightness adjustments map a zero score to
zero in every branch. -/
theorem adjustSatVal_zero (color_name : String) (mean_s mean_v : ℚ) :
    adjustSatVal color_name mean_s mean_v 0 = 0 := by
  unfold adjustSatVal
  split_ifs <;> norm_num

/-- Helper: the dominant-hue boost maps a zero score to zero. -/
theorem hueBoost_zero (pixels : List Pixel) (rng : ColorRange) :
    hueBoost pixels rng 0 = 0 := by
  unfold hueBoost
  split_ifs <;> norm_num

/-- Helper: a candidate whose (red-adjusted) matching count is zero has
adjusted confidence zero. -/
theorem scoreColor_zero (ranges : List (String × ColorRange)) (pixels : List Pixel)
    (color_name : String) (rng : ColorRange)
    (h : redAdjustedCount ranges pixels color_name rng = 0) :
    scoreColor ranges pixels color_name rng = 0 := by
  unfold scoreColor
  rw [h]
  have hz : (if 0 < pixels.length then (((0:ℕ) : ℚ)) / (pixels.length : ℚ) else 0) = 0 := by
    split_ifs <;> simp
  rw [hz, hueBoost_zero, adjustSatVal_zero]

/-- Helper: a candidate with adjusted confidence zero never displaces a
best candidate with nonnegative confidence. -/
theorem rangeStep_of_score_zero (ranges : List (String × ColorRange))
    (pixels : List Pixel) (best : String × ℚ) (e : String × ColorRange)
    (h : scoreColor ranges pixels e.1 e.2 = 0) (hb : 0 ≤ best.2) :
    rangeStep ranges pixels best e = best := by
  unfold rangeStep
  split_ifs with h1 h2
  · rfl
  · rw [h] at h2
    exact absurd h2 (not_lt.mpr hb)
  · rfl

/-- Helper: when every palette candidate scores zero, the range pass
returns the initial pair ("unknown", 0). -/
theorem rangePass_zero (ranges : List (String × ColorRange)) (pixels : List Pixel)
    (hall : ∀ e ∈ ranges, scoreColor ranges pixels e.1 e.2 = 0) :
    rangePass ranges pixels = ("unknown", 0) := by
  unfold rangePass
  have main : ∀ l : List (String × ColorRange),
      (∀ e ∈ l, scoreColor ranges pixels e.1 e.2 = 0) →
      l.foldl (rangeStep ranges pixels) ("unknown", 0) = ("unknown", 0) := by
    intro l
    induction l with
    | nil => intro _; rfl
    | cons e t ih =>
      intro hl
      rw [List.foldl_cons,
        rangeStep_of_score_zero ranges pixels _ e (hl e (List.mem_cons_self e t)) (le_refl 0)]
      exact ih (fun x hx => hl x (List.mem_cons_of_mem e hx))
  exact main ranges hall

/-- Helper: the name of the classifier result is the post-fallback best
name, and its confidence is the capped post-fallback best confidence. -/
theorem findDominantColorCore_projections (st : AnalyzerState) (pixels : List Pixel) :
    (findDominantColorCore st pixels).name = (bestAfterFallback st pixels).1 ∧
    (findDominantColorCore st pixels).confidence = min (bestAfterFallback st pixels).2 1 :=
  ⟨rfl, rfl⟩

/-- Claim C5: whenever the best adjusted confidence of the range pass is
below 0.1, the classifier falls back to the mean-HSV bands and returns
exactly 0.5 as confidence; in every case the returned confidence is
capped at 1.0. -/
theorem fallback_half_confidence (st : AnalyzerState) (pixels : List Pixel) :
    ((rangePass st.colorRanges pixels).2 < 1/10 →
      (findDominantColorCore st pixels).name =
        classifyByAverageHSV (averageHSV pixels) ∧
      (findDominantColorCore st pixels).confidence = 1/2) ∧
    (findDominantColorCore st pixels).confidence ≤ 1 := by
  constructor
  · intro hlow
    have hb : bestAfterFallback st pixels =
        (classifyByAverageHSV (averageHSV pixels), (1/2 : ℚ)) := by
      unfold bestAfterFallback
      exact if_pos hlow
    constructor
    · show (bestAfterFallback st pixels).1 = _
      rw [hb]
    · show min (bestAfterFallback st pixels).2 1 = 1/2
      rw [hb]
      norm_num
  · show min (bestAfterFallback st pixels).2 1 ≤ 1
    exact min_le_right _ _

/-- Claim C5, witness: a single pixel with saturation 40 and value 100
matches no palette range (saturation too low for the chromatic ranges,
too high for white and gray, value too high for black), so the range pass
scores 0 and the fallback fires. -/
theorem fallback_half_confidence_witness :
    (findDominantColorCore defaultAnalyzerState [⟨0, 40, 100⟩]).name =
      classifyByAverageHSV (averageHSV [⟨0, 40, 100⟩]) ∧
    (findDominantColorCore defaultAnalyzerState [⟨0, 40, 100⟩]).confidence = 1/2 :=
  (fallback_half_confidence defaultAnalyzerState [⟨0, 40, 100⟩]).1 (by
    have hpass : rangePass defaultColorRanges [⟨0, 40, 100⟩] = ("unknown", 0) := by
      apply rangePass_zero
      intro e he
      fin_cases he <;> exact scoreColor_zero _ _ _ _ (by decide)
    show (rangePass defaultAnalyzerState.colorRanges [⟨0, 40, 100⟩]).2 < 1/10
    rw [show defaultAnalyzerState.colorRanges = defaultColorRanges from rfl, hpass]
    norm_num)

/-- Claim C8: the color classifier is a deterministic function with no
state mutation: every call that returns a Color returns the analyzer
state unchanged, and repeating the call with that state yields the
bit-identical successful result (and a failing call, being a pure
function of the same inputs, fails identically). -/
theorem analyze_color_deterministic (cvt : ℕ × ℕ × ℕ → Pixel)
    (blur : List Pixel → List Pixel) (st : AnalyzerState) (image : BgrImage)
    (obj : DetectedObject) :
    (∀ c st2, analyzeColor cvt blur st image obj = Except.ok (c, st2) → st2 = st) ∧
    (∀ c st2, analyzeColor cvt blur st image obj = Except.ok (c, st2) →
      analyzeColor cvt blur st2 image obj = Except.ok (c, st2)) := by
  have hst : ∀ c st2, analyzeColor cvt blur st image obj = Except.ok (c, st2) →
      st2 = st := by
    intro c st2 h
    unfold analyzeColor at h
    cases hcv : convertToHsv cvt (extractRoiPixels image obj.bounding_box) with
    | error e =>
      rw [hcv] at h
      have h2 : (Except.error e : Except String (Color × AnalyzerState)) =
          Except.ok (c, st2) := h
      exact Except.noConfusion h2
    | ok hsv_roi =>
      rw [hcv] at h
      have h2 : (Except.ok (findDominantColor st blur hsv_roi, st) :
          Except String (Color × AnalyzerState)) = Except.ok (c, st2) := h
      have h3 := Except.ok.inj h2
      exact (congrArg Prod.snd h3).symm
  refine ⟨hst, ?_⟩
  intro c st2 h
  have he := hst c st2 h
  rw [he]
  rw [he] at h
  exact h

/-- Helper: an effective numpy slice bound is nonnegative. -/
theorem npBound_nonneg (n : ℕ) (i : ℤ) : 0 ≤ npBound n i :=
  le_min (Int.natCast_nonneg n) (le_max_left _ _)

/-- Helper: an effective numpy slice bound is at most the axis length. -/
theorem npBound_le (n : ℕ) (i : ℤ) : npBound n i ≤ (n : ℤ) :=
  min_le_left _ _

/-- Helper: every index of a numpy slice lies within the axis: even with
negative-stop wraparound, slicing never reads out of bounds. -/
theorem npSliceIndices_mem (n : ℕ) (start stop : ℤ) :
    ∀ i ∈ npSliceIndices n start stop, 0 ≤ i ∧ i < (n : ℤ) := by
  intro i hi
  unfold npSliceIndices at hi
  obtain ⟨k, hk_mem, rfl⟩ := List.mem_map.mp hi
  have hk := List.mem_range.mp hk_mem
  have h1 := npBound_nonneg n start
  have h2 := npBound_le n stop
  constructor <;> omega

/-- Helper: every coordinate the crop reads lies inside the frame (this
half of claim C6 does hold of the program). -/
theorem extractRoiCoords_in_frame (image : BgrImage) (b : BoundingBox) :
    ∀ rc ∈ extractRoiCoords image b,
      0 ≤ rc.1 ∧ rc.1 < (image.height : ℤ) ∧ 0 ≤ rc.2 ∧ rc.2 < (image.width : ℤ) := by
  intro rc hrc
  unfold extractRoiCoords at hrc
  obtain ⟨row, hrow, hrc⟩ := List.mem_flatten.mp hrc
  obtain ⟨r, hr_mem, rfl⟩ := List.mem_map.mp hrow
  obtain ⟨c, hc_mem, rfl⟩ := List.mem_map.mp hrc
  have hr := npSliceIndices_mem image.height _ _ r hr_mem
  have hc := npSliceIndices_mem image.width _ _ c hc_mem
  exact ⟨hr.1, hr.2, hc.1, hc.2⟩

/-- Concrete 10 by 10 frame whose every pixel carries the BGR triple
(0, 40, 100). -/
def testFrame10 : BgrImage := ⟨10, 10, fun _ _ => (0, 40, 100)⟩

/-- The abstract BGR-to-HSV conversion instantiated for witnesses: reads
the stored triple as (h, s, v). -/
def hsvIdConv : ℕ × ℕ × ℕ → Pixel := fun t => ⟨t.1, t.2.1, t.2.2⟩

/-- Detected object whose box (20, 0, 3, 3) lies fully to the right of
the 10 by 10 frame: x_start = 20, x_end = min(10, 23) = 10, so the
clipped crop is genuinely empty. -/
def outsideRightObj : DetectedObject := ⟨⟨20, 0, 3, 3⟩, [], none, 1, none⟩

/-- Detected object whose box (2, -8, 3, 3) lies fully above the
10 by 10 frame, yet y_end = min(10, -5) = -5 is a negative stop, which
numpy wraps to row 5: the crop image[0:-5, 2:5] is a nonempty 5 by 3
block of unrelated frame pixels. -/
def wrapAroundObj : DetectedObject := ⟨⟨2, -8, 3, 3⟩, [], none, 1, none⟩

/-- Detected object with the in-frame box (0, 0, 1, 1). -/
def insideObj : DetectedObject := ⟨⟨0, 0, 1, 1⟩, [], none, 1, none⟩

/-- Claim C6 (code bug): evaluation of the faithful model at the failing
input.  The box (20, 0, 3, 3) on the 10 by 10 frame has an empty clipped
crop, and analyze_color then stops with the cv2.cvtColor error (OpenCV
asserts a nonempty source) instead of returning
Color(128, 128, 128, "unknown", 0.0): the conversion runs before the
size == 0 guard of _find_dominant_color, so that guarded Color — clearly
the intended behaviour — is unreachable for a genuinely empty crop.
Additionally, the box (2, -8, 3, 3) also lies fully outside the frame
(y + height = -5 <= 0), yet numpy negative-stop wraparound makes its
crop a nonempty 15-pixel block, contradicting the claim that a box fully
outside the frame is an example of an empty crop. -/
theorem empty_crop_raises_cvtcolor :
    extractRoiPixels testFrame10 outsideRightObj.bounding_box = [] ∧
    analyzeColor hsvIdConv id defaultAnalyzerState testFrame10 outsideRightObj =
      Except.error "cvtColor: !_src.empty()" ∧
    (∀ c st2, analyzeColor hsvIdConv id defaultAnalyzerState testFrame10 outsideRightObj ≠
      Except.ok (c, st2)) ∧
    wrapAroundObj.bounding_box.y + wrapAroundObj.bounding_box.height ≤ 0 ∧
    (extractRoiCoords testFrame10 wrapAroundObj.bounding_box).length = 15 := by
  refine ⟨by decide, rfl, ?_, by decide, by decide⟩
  intro c st2 h
  have h2 : (Except.error "cvtColor: !_src.empty()" :
      Except String (Color × AnalyzerState)) = Except.ok (c, st2) := h
  exact Except.noConfusion h2

/-- Helper: the single pixel (0, 40, 100) scores zero on every palette
candidate, so the range pass stays at the initial ("unknown", 0). -/
theorem rangePass_pixel40 : rangePass defaultColorRanges [⟨0, 40, 100⟩] = ("unknown", 0) := by
  apply rangePass_zero
  intro e he
  fin_cases he <;> exact scoreColor_zero _ _ _ _ (by decide)

/-- Claim C8, witness: on the in-frame box the call succeeds with the
fallback color red at confidence 1/2, the returned state is the input
state, and the repeated call returns the identical result. -/
theorem analyze_color_deterministic_witness :
    defaultAnalyzerState = defaultAnalyzerState ∧
    analyzeColor hsvIdConv id defaultAnalyzerState testFrame10 insideObj =
      Except.ok (⟨255, 0, 0, "red", 1/2⟩, defaultAnalyzerState) := by
  have hb : bestAfterFallback defaultAnalyzerState [⟨0, 40, 100⟩] = ("red", 1/2) := by
    unfold bestAfterFallback
    simp only [defaultAnalyzerState]
    rw [rangePass_pixel40,
      if_pos (show ((("unknown", (0:ℚ))).2) < 1/10 by norm_num)]
    rfl
  have hcore : findDominantColorCore defaultAnalyzerState [⟨0, 40, 100⟩] =
      ⟨255, 0, 0, "red", 1/2⟩ := by
    unfold findDominantColorCore
    rw [hb]
    show (⟨255, 0, 0, "red", min (1/2 : ℚ) 1⟩ : Color) = ⟨255, 0, 0, "red", 1/2⟩
    have hmin : min ((1:ℚ)/2) 1 = 1/2 := by norm_num
    rw [hmin]
  have heval : analyzeColor hsvIdConv id defaultAnalyzerState testFrame10 insideObj =
      Except.ok (⟨255, 0, 0, "red", 1/2⟩, defaultAnalyzerState) := by
    calc analyzeColor hsvIdConv id defaultAnalyzerState testFrame10 insideObj
        = Except.ok (findDominantColorCore defaultAnalyzerState [⟨0, 40, 100⟩],
            defaultAnalyzerState) := rfl
      _ = Except.ok (⟨255, 0, 0, "red", 1/2⟩, defaultAnalyzerState) := by rw [hcore]
  have h := analyze_color_deterministic hsvIdConv id defaultAnalyzerState
    testFrame10 insideObj
  exact ⟨h.1 ⟨255, 0, 0, "red", 1/2⟩ defaultAnalyzerState heval,
    h.2 ⟨255, 0, 0, "red", 1/2⟩ defaultAnalyzerState heval⟩

/-- Helper: a range whose lower saturation bound is at least 50 matches
no pixel of a crop whose pixels all have saturation below 50. -/
theorem countInRange_zero_of_sat (lo hi : ℕ × ℕ × ℕ) (hlo : 50 ≤ lo.2.1) :
    ∀ pixels : List Pixel, (∀ p ∈ pixels, p.s < 50) →
      countInRange pixels (lo, hi) = 0 := by
  intro pixels
  induction pixels with
  | nil => intro _; rfl
  | cons p t ih =>
    intro hs
    have hfalse : pixelInRange p (lo, hi) = false := by
      apply decide_eq_false
      intro hcon
      have h1 : lo.2.1 ≤ p.s := hcon.2.2.1
      have h2 := hs p (List.mem_cons_self p t)
      omega
    show (List.filter (fun q => pixelInRange q (lo, hi)) (p :: t)).length = 0
    rw [List.filter_cons, hfalse]
    simp only [Bool.false_eq_true, if_false]
    exact ih (fun q hq => hs q (List.mem_cons_of_mem p hq))

/-- Helper: the winning name of the range pass is either the initial
"unknown" or the name of a palette entry with a strictly positive
adjusted confidence; entries whose adjusted confidence is zero can never
become the winner. -/
theorem rangePass_name_mem (ranges : List (String × ColorRange)) (pixels : List Pixel)
    (allowed : List String) (hinit : "unknown" ∈ allowed)
    (hall : ∀ e ∈ ranges, e.1 ∈ allowed ∨ scoreColor ranges pixels e.1 e.2 = 0) :
    (rangePass ranges pixels).1 ∈ allowed := by
  unfold rangePass
  have main : ∀ (l : List (String × ColorRange)) (acc : String × ℚ), 0 ≤ acc.2 →
      acc.1 ∈ allowed →
      (∀ e ∈ l, e.1 ∈ allowed ∨ scoreColor ranges pixels e.1 e.2 = 0) →
      (l.foldl (rangeStep ranges pixels) acc).1 ∈ allowed := by
    intro l
    induction l with
    | nil => intro acc _ hacc _; exact hacc
    | cons e t ih =>
      intro acc hnn hacc hl
      rw [List.foldl_cons]
      have hstep : 0 ≤ (rangeStep ranges pixels acc e).2 ∧
          (rangeStep ranges pixels acc e).1 ∈ allowed := by
        unfold rangeStep
        split_ifs with h1 h2
        · exact ⟨hnn, hacc⟩
        · rcases hl e (List.mem_cons_self e t) with he | he
          · exact ⟨le_of_lt (lt_of_le_of_lt hnn h2), he⟩
          · rw [he] at h2
            exact absurd h2 (not_lt.mpr hnn)
        · exact ⟨hnn, hacc⟩
      exact ih (rangeStep ranges pixels acc e) hstep.1 hstep.2
        (fun x hx => hl x (List.mem_cons_of_mem e hx))
  exact main ranges ("unknown", 0) (le_refl 0) hinit hall

/-- Claim C2, amended: when every pixel of the (filtered) crop has
saturation strictly below 50 (the lower saturation bound shared by all
chromatic palette ranges), the range-matching pass never selects a
chromatic name: its winner is "unknown" or one of white, black, gray;
consequently a chromatic final result can only arise from the mean-HSV
fallback, which fires exactly when the best adjusted confidence is below
0.1. -/
theorem low_saturation_no_chromatic (pixels : List Pixel)
    (hs : ∀ p ∈ pixels, p.s < 50) :
    (rangePass defaultColorRanges pixels).1 ∈
      (["unknown", "white", "black", "gray"] : List String) ∧
    ((findDominantColorCore defaultAnalyzerState pixels).name ∉
        (["unknown", "white", "black", "gray"] : List String) →
      (rangePass defaultColorRanges pixels).2 < 1/10) := by
  have hmem : (rangePass defaultColorRanges pixels).1 ∈
      (["unknown", "white", "black", "gray"] : List String) := by
    apply rangePass_name_mem
    · decide
    · intro e he
      fin_cases he <;>
        first
          | exact Or.inl (by decide)
          | exact Or.inr (scoreColor_zero _ _ _ _ (by
              unfold redAdjustedCount
              rw [if_neg (by decide)]
              exact countInRange_zero_of_sat _ _ (by decide) pixels hs))
          | exact Or.inr (scoreColor_zero _ _ _ _ (by
              unfold redAdjustedCount
              rw [if_pos rfl]
              show countInRange pixels ((0, 50, 50), (10, 255, 255)) +
                countInRange pixels ((170, 50, 50), (180, 255, 255)) = 0
              rw [countInRange_zero_of_sat (0, 50, 50) (10, 255, 255) (by decide) pixels hs,
                countInRange_zero_of_sat (170, 50, 50) (180, 255, 255) (by decide) pixels hs]))
  refine ⟨hmem, ?_⟩
  intro hnot
  by_contra hge
  push_neg at hge
  apply hnot
  have hbest : bestAfterFallback defaultAnalyzerState pixels =
      rangePass defaultColorRanges pixels := by
    unfold bestAfterFallback
    simp only [defaultAnalyzerState]
    exact if_neg (not_lt.mpr hge)
  show (bestAfterFallback defaultAnalyzerState pixels).1 ∈ _
  rw [hbest]
  exact hmem

/-- Claim C2, amended, witness: a single zero-saturation pixel of
brightness 100 satisfies the hypothesis, and the range pass selects
"gray". -/
theorem low_saturation_no_chromatic_witness :
    (rangePass defaultColorRanges [⟨0, 0, 100⟩]).1 ∈
      (["unknown", "white", "black", "gray"] : List String) ∧
    ((findDominantColorCore defaultAnalyzerState [⟨0, 0, 100⟩]).name ∉
        (["unknown", "white", "black", "gray"] : List String) →
      (rangePass defaultColorRanges [⟨0, 0, 100⟩]).2 < 1/10) :=
  low_saturation_no_chromatic [⟨0, 0, 100⟩] (by decide)

/-- Crop refuting the mean-saturation version of the claim: 5 saturated
red pixels (s = 50, v = 255) among 9 gray-scale pixels spread over the
black, gray and white brightness bands.  Mean saturation is
250/14, below the 25.5 threshold, yet red scores 5/14 * 1.2 * 0.8 = 12/35
while each of white, black and gray scores only 3/14 * 1.2 * 1.2 =
54/175 < 12/35. -/
def c2pix : List Pixel :=
  [⟨0, 50, 255⟩, ⟨0, 50, 255⟩, ⟨0, 50, 255⟩, ⟨0, 50, 255⟩, ⟨0, 50, 255⟩,
   ⟨0, 0, 20⟩, ⟨0, 0, 20⟩, ⟨0, 0, 20⟩,
   ⟨0, 0, 100⟩, ⟨0, 0, 100⟩, ⟨0, 0, 100⟩,
   ⟨0, 0, 220⟩, ⟨0, 0, 220⟩, ⟨0, 0, 220⟩]

/-- Helper: mean saturation of the counterexample crop. -/
theorem meanSat_c2pix : meanSat c2pix = 125/7 := by
  norm_num [meanSat, c2pix]

/-- Helper: mean value of the counterexample crop. -/
theorem meanVal_c2pix : meanVal c2pix = 2295/14 := by
  norm_num [meanVal, c2pix]

/-- Helper: adjusted confidence of red on the counterexample crop. -/
theorem score_red_c2pix :
    scoreColor defaultColorRanges c2pix "red" ((0, 50, 50), (10, 255, 255)) = 12/35 := by
  unfold scoreColor hueBoost adjustSatVal
  rw [show redAdjustedCount defaultColorRanges c2pix "red"
      ((0, 50, 50), (10, 255, 255)) = 5 from by decide,
    show dominantHue c2pix = 0 from by decide,
    show c2pix.length = 14 from by decide,
    meanSat_c2pix, meanVal_c2pix]
  norm_num
  all_goals decide

/-- Helper: adjusted confidence of white on the counterexample crop. -/
theorem score_white_c2pix :
    scoreColor defaultColorRanges c2pix "white" ((0, 0, 200), (180, 30, 255)) = 54/175 := by
  unfold scoreColor hueBoost adjustSatVal
  rw [show redAdjustedCount defaultColorRanges c2pix "white"
      ((0, 0, 200), (180, 30, 255)) = 3 from by decide,
    show dominantHue c2pix = 0 from by decide,
    show c2pix.length = 14 from by decide,
    meanSat_c2pix, meanVal_c2pix]
  norm_num

/-- Helper: adjusted confidence of black on the counterexample crop. -/
theorem score_black_c2pix :
    scoreColor defaultColorRanges c2pix "black" ((0, 0, 0), (180, 255, 50)) = 54/175 := by
  unfold scoreColor hueBoost adjustSatVal
  rw [show redAdjustedCount defaultColorRanges c2pix "black"
      ((0, 0, 0), (180, 255, 50)) = 3 from by decide,
    show dominantHue c2pix = 0 from by decide,
    show c2pix.length = 14 from by decide,
    meanSat_c2pix, meanVal_c2pix]
  norm_num

/-- Helper: adjusted confidence of gray on the counterexample crop. -/
theorem score_gray_c2pix :
    scoreColor defaultColorRanges c2pix "gray" ((0, 0, 51), (180, 30, 199)) = 54/175 := by
  unfold scoreColor hueBoost adjustSatVal
  rw [show redAdjustedCount defaultColorRanges c2pix "gray"
      ((0, 0, 51), (180, 30, 199)) = 3 from by decide,
    show dominantHue c2pix = 0 from by decide,
    show c2pix.length = 14 from by decide,
    meanSat_c2pix, meanVal_c2pix]
  norm_num

/-- Helper: the full range pass on the counterexample crop selects red
with adjusted confidence 12/35. -/
theorem rangePass_c2pix : rangePass defaultColorRanges c2pix = ("red", 12/35) := by
  have hz : ∀ (nm : String) (rng : ColorRange),
      redAdjustedCount defaultColorRanges c2pix nm rng = 0 →
      rangeStep defaultColorRanges c2pix ("red", 12/35) (nm, rng) = ("red", 12/35) := by
    intro nm rng h
    exact rangeStep_of_score_zero _ _ _ _ (scoreColor_zero _ _ _ _ h) (by norm_num)
  have h1 : rangeStep defaultColorRanges c2pix ("unknown", 0)
      ("red", ((0, 50, 50), (10, 255, 255))) = ("red", 12/35) := by
    simp only [rangeStep]
    rw [if_neg (by decide), score_red_c2pix, if_pos (by norm_num)]
  have h2 : rangeStep defaultColorRanges c2pix ("red", 12/35)
      ("red2", ((170, 50, 50), (180, 255, 255))) = ("red", 12/35) := by
    simp only [rangeStep]
    rw [if_pos (by decide)]
  have hw : rangeStep defaultColorRanges c2pix ("red", 12/35)
      ("white", ((0, 0, 200), (180, 30, 255))) = ("red", 12/35) := by
    simp only [rangeStep]
    rw [if_neg (by decide), score_white_c2pix, if_neg (by norm_num)]
  have hb : rangeStep defaultColorRanges c2pix ("red", 12/35)
      ("black", ((0, 0, 0), (180, 255, 50))) = ("red", 12/35) := by
    simp only [rangeStep]
    rw [if_neg (by decide), score_black_c2pix, if_neg (by norm_num)]
  have hg : rangeStep defaultColorRanges c2pix ("red", 12/35)
      ("gray", ((0, 0, 51), (180, 30, 199))) = ("red", 12/35) := by
    simp only [rangeStep]
    rw [if_neg (by decide), score_gray_c2pix, if_neg (by norm_num)]
  show List.foldl (rangeStep defaultColorRanges c2pix) ("unknown", 0)
    [("red", ((0, 50, 50), (10, 255, 255))),
     ("red2", ((170, 50, 50), (180, 255, 255))),
     ("orange", ((11, 50, 50), (25, 255, 255))),
     ("yellow", ((26, 50, 50), (35, 255, 255))),
     ("green", ((36, 50, 50), (85, 255, 255))),
     ("cyan", ((86, 50, 50), (95, 255, 255))),
     ("blue", ((96, 50, 50), (125, 255, 255))),
     ("purple", ((126, 50, 50), (145, 255, 255))),
     ("pink", ((146, 50, 50), (169, 255, 255))),
     ("white", ((0, 0, 200), (180, 30, 255))),
     ("black", ((0, 0, 0), (180, 255, 50))),
     ("gray", ((0, 0, 51), (180, 30, 199)))] = ("red", 12/35)
  rw [List.foldl_cons, h1, List.foldl_cons, h2,
    List.foldl_cons, hz "orange" ((11, 50, 50), (25, 255, 255)) (by decide),
    List.foldl_cons, hz "yellow" ((26, 50, 50), (35, 255, 255)) (by decide),
    List.foldl_cons, hz "green" ((36, 50, 50), (85, 255, 255)) (by decide),
    List.foldl_cons, hz "cyan" ((86, 50, 50), (95, 255, 255)) (by decide),
    List.foldl_cons, hz "blue" ((96, 50, 50), (125, 255, 255)) (by decide),
    List.foldl_cons, hz "purple" ((126, 50, 50), (145, 255, 255)) (by decide),
    List.foldl_cons, hz "pink" ((146, 50, 50), (169, 255, 255)) (by decide),
    List.foldl_cons, hw, List.foldl_cons, hb, List.foldl_cons, hg, List.foldl_nil]

/-- Claim C2, counterexample: the crop c2pix has mean saturation
125/7 < 25.5, yet the range-matching pass itself selects the chromatic
name "red" (with adjusted confidence 12/35, far above the 0.1 fallback
threshold), so the final classification is "red" without any fallback. -/
theorem low_saturation_claim_counterexample :
    meanSat c2pix < 51/2 ∧
    (rangePass defaultColorRanges c2pix).1 = "red" ∧
    ("red" ∉ (["unknown", "white", "black", "gray"] : List String)) ∧
    ¬ (rangePass defaultColorRanges c2pix).2 < 1/10 ∧
    (findDominantColorCore defaultAnalyzerState c2pix).name = "red" := by
  refine ⟨?_, ?_, ?_, ?_, ?_⟩
  · rw [meanSat_c2pix]
    norm_num
  · rw [rangePass_c2pix]
  · decide
  · rw [rangePass_c2pix]
    norm_num
  · have hbest : bestAfterFallback defaultAnalyzerState c2pix = ("red", 12/35) := by
      unfold bestAfterFallback
      simp only [defaultAnalyzerState]
      rw [rangePass_c2pix]
      norm_num
    show (bestAfterFallback defaultAnalyzerState c2pix).1 = "red"
    rw [hbest]

end ObjectDetector
